import Mathlib

/-
Verification of the simplevisor package: a process supervisor that registers
named long-running handlers, runs each in its own goroutine under a
restart-supervision loop, and coordinates a timeout-bounded graceful shutdown.

The embedding below translates the Go source definition by definition.
Durations are modelled as Int nanoseconds (Go time.Duration is int64), the
registry map as an association list with unique keys, handler and recover
function values as opaque numeric identifiers, and the behaviour of one
handler invocation as an abstract outcome (clean return, non-nil error, or
panic). The shared cancellation context is a Boolean flag on the supervisor
state; goroutine interleavings are not modelled, so the supervision loop is
given the sequence of handler outcomes as a function of the invocation index
and a fuel bound standing for the unbounded Go for-loop.
-/

set_option autoImplicit false

namespace Simplevisor

/-- RestartPolicy defines when a process should be restarted. The Go source
declares the three constants with iota; RestartNever is the zero value. -/
inductive RestartPolicy where
  | restartNever : RestartPolicy
  | restartAlways : RestartPolicy
  | restartOnFailure : RestartPolicy
deriving DecidableEq, Repr

/-- ProcessStatus represents the current state of a process; StatusStopped is
the Go zero value. -/
inductive ProcessStatus where
  | statusStopped : ProcessStatus
  | statusRunning : ProcessStatus
  | statusRestarting : ProcessStatus
deriving DecidableEq, Repr

/-- Outcome of one invocation of a ProcessFunc handler: it returns nil,
returns a non-nil error, or panics before returning. -/
inductive HandlerOutcome where
  | ok : HandlerOutcome
  | errored : HandlerOutcome
  | panicked : HandlerOutcome
deriving DecidableEq, Repr

/-- Logger value held by the supervisor. New substitutes a default JSON
handler logger when the caller passes nil, so the stored field is never nil;
that is reflected here by the field having type Logger rather than
Option Logger. -/
inductive Logger where
  | defaultJSONLogger : Logger
  | custom : Nat → Logger
deriving DecidableEq, Repr

/-- Constant DefaultGracefulShutdownTimeout = 5 * time.Second, in
nanoseconds. -/
def DefaultGracefulShutdownTimeout : Int := 5 * 1000000000

/-- Constant DefaultRestartDelay = 1 * time.Second, in nanoseconds. -/
def DefaultRestartDelay : Int := 1 * 1000000000

/-- Constant DefaultMaxRestarts = 3. -/
def DefaultMaxRestarts : Int := 3

/-- Process is the per-task record stored in the registry. Function-typed
fields (handler, recoverHandler) are opaque identifiers here: the Go struct
stores function values whose only observable property in the registry is
identity. The default values of the optional fields are the Go zero values
left unset by the composite literal in Register. -/
structure Process where
  name : String
  handler : Nat
  recoverHandler : Option Nat := none
  restartPolicy : RestartPolicy := .restartNever
  maxRestarts : Int := 0
  restartDelay : Int := 0
  restartCount : Int := 0
  status : ProcessStatus := .statusStopped
deriving DecidableEq, Repr

/-- Option mutates a Process record during Register, as func(p *Process). -/
def SvOption : Type := Process → Process

/-- WithRecover sets the recover handler for the process. -/
def WithRecover (handler : Nat) : SvOption :=
  fun p => { p with recoverHandler := some handler }

/-- WithRestart sets the restart policy for the process. A non-positive delay
is replaced by DefaultRestartDelay at configuration time; maxRestarts is
stored verbatim, with no default substitution. -/
def WithRestart (policy : RestartPolicy) (maxRestarts : Int) (delay : Int) : SvOption :=
  fun p =>
    let delay := if delay ≤ 0 then DefaultRestartDelay else delay
    { p with restartPolicy := policy, maxRestarts := maxRestarts, restartDelay := delay }

/-- Registry of processes: the Go map[string]Process, as an association list
whose keys are unique (Register refuses duplicates). -/
abbrev Registry : Type := List (String × Process)

/-- Lookup of a name in the registry, as the Go map read p, ok := m[name]. -/
def mapLookup (l : Registry) (k : String) : Option Process :=
  match l with
  | [] => none
  | (k1, v1) :: rest => if k1 = k then some v1 else mapLookup rest k

/-- Insertion into the registry, as the Go map write m[name] = p: replaces an
existing entry for the key or appends a fresh one. -/
def mapInsert (l : Registry) (k : String) (v : Process) : Registry :=
  match l with
  | [] => [(k, v)]
  | (k1, v1) :: rest => if k1 = k then (k, v) :: rest else (k1, v1) :: mapInsert rest k v

/-- Supervisor state. The shutDownCtx and shutDownCancel pair is modelled by
the cancelled flag (level-triggered: once true it stays true); the mutex,
signal channel, wait group and metrics recorder carry no registry-visible
state and are omitted. -/
structure Supervisor where
  processes : Registry
  shutdownTimeout : Int
  logger : Logger
  cancelled : Bool
deriving DecidableEq, Repr

/-- New returns a new instance of Supervisor: nil logger replaced by a
default JSON logger, non-positive shutdown timeout replaced by
DefaultGracefulShutdownTimeout, empty registry, fresh (uncancelled)
context. -/
def New (shutdownTimeout : Int) (sLog : Option Logger) : Supervisor :=
  let sLog := match sLog with
    | none => Logger.defaultJSONLogger
    | some l => l
  let shutdownTimeout :=
    if shutdownTimeout ≤ 0 then DefaultGracefulShutdownTimeout else shutdownTimeout
  { processes := []
  , shutdownTimeout := shutdownTimeout
  , logger := sLog
  , cancelled := false }

/-- Base Process record built by the composite literal inside Register,
before any option is applied: name, handler, maxRestarts and restartDelay
defaults and status Stopped are set explicitly; restartPolicy, restartCount
and recoverHandler keep their Go zero values. -/
def baseProcess (name : String) (handler : Nat) : Process :=
  { name := name
  , handler := handler
  , maxRestarts := DefaultMaxRestarts
  , restartDelay := DefaultRestartDelay
  , status := .statusStopped }

/-- Application of the option slice in argument order, as the Go range loop
for _, option := range options. -/
def applyOptions (options : List SvOption) (p : Process) : Process :=
  List.foldl (fun q o => o q) p options

/-- Check performed by Register: true when the name is already registered.
In Go this panics inside the lock; here the Boolean feeds the error branch
of Register. -/
def panicIfNameAlreadyInUse (s : Supervisor) (name : String) : Bool :=
  (mapLookup s.processes name).isSome

/-- Register registers a new process to the supervisor. The Go function
panics when the name is not unique; the panic is modelled as the error
branch of Except. On success the only effect is the registry insertion: no
execution is started and no other supervisor field changes. -/
def Register (s : Supervisor) (name : String) (handler : Nat)
    (options : List SvOption) : Except String Supervisor :=
  if panicIfNameAlreadyInUse s name then
    .error ("process name already in use: " ++ name)
  else
    .ok { s with processes := mapInsert s.processes name (applyOptions options (baseProcess name handler)) }

/-- The IsRunning query: false for an unregistered name, otherwise a
comparison of the stored status with StatusRunning. -/
def IsRunning (s : Supervisor) (name : String) : Bool :=
  match mapLookup s.processes name with
  | none => false
  | some p => p.status == .statusRunning

/-- ProcessCount returns the number of registered processes (the length of
the map). -/
def ProcessCount (s : Supervisor) : Nat :=
  s.processes.length

/-- GetProcessStatus returns the current status of a process, as the Go pair
of a ProcessStatus and an error: (StatusStopped, not-found error) for an
unknown name, (status, nil) otherwise. -/
def GetProcessStatus (s : Supervisor) (name : String) : ProcessStatus × Option String :=
  match mapLookup s.processes name with
  | none => (.statusStopped, some ("process " ++ name ++ " not found"))
  | some p => (p.status, none)

/-- The setProcessStatus accessor: updates the status of the named process
when it exists, otherwise leaves the registry unchanged. -/
def setProcessStatus (s : Supervisor) (name : String) (status : ProcessStatus) : Supervisor :=
  match mapLookup s.processes name with
  | none => s
  | some p => { s with processes := mapInsert s.processes name { p with status := status } }

/-- The incrementRestartCount accessor: adds one to the restart counter of
the named process when it exists. -/
def incrementRestartCount (s : Supervisor) (name : String) : Supervisor :=
  match mapLookup s.processes name with
  | none => s
  | some p => { s with processes := mapInsert s.processes name { p with restartCount := p.restartCount + 1 } }

/-- The getRestartCount accessor: the stored restart counter, or 0 for an
unknown name. -/
def getRestartCount (s : Supervisor) (name : String) : Int :=
  match mapLookup s.processes name with
  | none => 0
  | some p => p.restartCount

/-- The resetRestartCount accessor: sets the restart counter of the named
process back to 0 when it exists. -/
def resetRestartCount (s : Supervisor) (name : String) : Supervisor :=
  match mapLookup s.processes name with
  | none => s
  | some p => { s with processes := mapInsert s.processes name { p with restartCount := 0 } }

/-- The restart-policy switch at the end of executeProcess, literally: Never
yields false, Always yields true, OnFailure yields processErr != nil or
panicOccurred. The switch runs only when the handler returned without
panicking, so panicOccurred is false at every reachable call site. -/
def restartPolicySwitch (policy : RestartPolicy) (errNonNil : Bool) (panicOccurred : Bool) : Bool :=
  match policy with
  | .restartNever => false
  | .restartAlways => true
  | .restartOnFailure => errNonNil || panicOccurred

/-- One invocation of the handler, as executeProcess: sets the status to
Running, runs the handler, and returns the restart decision. When the
handler panics, the deferred recover stops the unwinding but executeProcess
has an unnamed bool result, so the Go function returns the zero value false
without ever reaching the restart-policy switch; the panicOccurred flag set
by the deferred function is therefore never read by the switch. When the
handler returns, panicOccurred is false and the switch sees only whether the
returned error was non-nil. -/
def executeProcess (s : Supervisor) (name : String) (process : Process)
    (outcome : HandlerOutcome) : Supervisor × Bool :=
  let s := setProcessStatus s name .statusRunning
  match outcome with
  | .panicked => (s, false)
  | .ok => (s, restartPolicySwitch process.restartPolicy false false)
  | .errored => (s, restartPolicySwitch process.restartPolicy true false)

/-- Result of a bounded unfolding of the supervision loop: finished means the
Go loop returned; outOfFuel means the modelled bound was reached while the
Go loop would keep iterating. -/
inductive LoopResult where
  | finished : LoopResult
  | outOfFuel : LoopResult
deriving DecidableEq, Repr

/-- The executeProcessWithRestart loop. The process argument is the snapshot
copied by Run, so its maxRestarts and restartDelay fields are fixed for the
whole loop, while restartCount and status are read and written through the
registry accessors. The outcomes function gives the result of the invocation
with the given zero-based index; invoked counts invocations performed so
far. The top-of-loop select on the shutdown context is the cancelled check;
the delay wait always completes in this single-threaded model because
cancelled cannot change while the loop runs. Returns the final supervisor
state, the total number of handler invocations, and whether the loop
returned within the given fuel. -/
def executeProcessWithRestart (s : Supervisor) (name : String) (process : Process)
    (outcomes : Nat → HandlerOutcome) (invoked : Nat) : Nat → Supervisor × Nat × LoopResult
  | 0 => (s, invoked, .outOfFuel)
  | fuel + 1 =>
    if s.cancelled then
      (s, invoked, .finished)
    else
      let r := executeProcess s name process (outcomes invoked)
      let s := r.1
      let invoked := invoked + 1
      if !r.2 then
        (setProcessStatus s name .statusStopped, invoked, .finished)
      else
        let s := incrementRestartCount s name
        if process.maxRestarts > 0 ∧ getRestartCount s name ≥ process.maxRestarts then
          (setProcessStatus s name .statusStopped, invoked, .finished)
        else
          let s := setProcessStatus s name .statusRestarting
          executeProcessWithRestart s name process outcomes invoked fuel

/-- Observable events of the shutdown path, in the order they happen. -/
inductive ShutdownEvent where
  | cancelLifetimeToken : ShutdownEvent
  | gracefulWaitCompleted : ShutdownEvent
  | shutdownTimeoutRecorded : ShutdownEvent
  | teardownRun : ShutdownEvent
deriving DecidableEq, Repr

/-- The gracefulShutdown routine: cancels the shared context, then waits for
the process wait group bounded by shutdownTimeout. Whether the wait finishes
before the timeout depends on the running handlers, abstracted here by the
unitsFinishWithinTimeout argument; on timeout the shutdown-timeout metric
and warning are recorded and the routine still returns. -/
def gracefulShutdown (s : Supervisor) (unitsFinishWithinTimeout : Bool) :
    Supervisor × List ShutdownEvent :=
  let s := { s with cancelled := true }
  if unitsFinishWithinTimeout then
    (s, [.cancelLifetimeToken, .gracefulWaitCompleted])
  else
    (s, [.cancelLifetimeToken, .shutdownTimeoutRecorded])

/-- The private shutdown routine shared by Shutdown and WaitOnShutdownSignal:
gracefulShutdown first, then the teardown callback when one was provided,
then a second cancel of the already-cancelled context (a level-triggered
no-op). It is a total function into a state and an event trace: no error is
ever produced. -/
def shutdown (s : Supervisor) (teardownProvided : Bool) (unitsFinishWithinTimeout : Bool) :
    Supervisor × List ShutdownEvent :=
  let r := gracefulShutdown s unitsFinishWithinTimeout
  let evs := if teardownProvided then r.2 ++ [ShutdownEvent.teardownRun] else r.2
  ({ r.1 with cancelled := true }, evs)

/-- Shutdown manually shuts down the supervisor: the shared path with a nil
teardown callback. -/
def Shutdown (s : Supervisor) (unitsFinishWithinTimeout : Bool) :
    Supervisor × List ShutdownEvent :=
  shutdown s false unitsFinishWithinTimeout

/-- Modelled from the spec: RestartProcess is documented in doc.go and
exercised by the package tests but its implementation file is not under src.
Per the spec it returns a not-found error for an unregistered name with no
state mutation; for a registered task it forces termination-and-restart,
resetting the restart counter (the spec reserves counter resets to explicit
manual restart) and leaving the task Running again. -/
def RestartProcess (s : Supervisor) (name : String) : Supervisor × Option String :=
  match mapLookup s.processes name with
  | none => (s, some ("process " ++ name ++ " not found"))
  | some _ =>
    let s := resetRestartCount s name
    (setProcessStatus s name .statusRunning, none)

/-- Modelled from the spec: StopProcess is documented in doc.go and exercised
by the package tests but its implementation file is not under src. Per the
spec it returns a not-found error for an unregistered name with no state
mutation; for a registered task it forces the Stopped status, preventing
further restarts. -/
def StopProcess (s : Supervisor) (name : String) : Supervisor × Option String :=
  match mapLookup s.processes name with
  | none => (s, some ("process " ++ name ++ " not found"))
  | some _ => (setProcessStatus s name .statusStopped, none)

/-- Helper extracting the supervisor from a successful Register, with a
fallback for the error branch. -/
def okOr (e : Except String Supervisor) (d : Supervisor) : Supervisor :=
  match e with
  | .ok s => s
  | .error _ => d

/-- Helper recognising the panic branch of Register. -/
def isErr (e : Except String Supervisor) : Bool :=
  match e with
  | .ok _ => false
  | .error _ => true

/-- Scenario: a fresh supervisor with one task registered under policy
Always, maxRestarts 3, delay 1s. -/
def alwaysNilSup : Supervisor :=
  okOr (Register (New 1000000000 none) "w" 7 [WithRestart .restartAlways 3 1000000000])
    (New 1 none)

/-- Scenario: the task record Run would snapshot for the alwaysNilSup
task. -/
def alwaysNilProc : Process :=
  (mapLookup alwaysNilSup.processes "w").getD (baseProcess "w" 7)

/-- Scenario: a fresh supervisor with one task registered under policy
Always and maxRestarts 0. -/
def unlimitedSup : Supervisor :=
  okOr (Register (New 1000000000 none) "w" 7 [WithRestart .restartAlways 0 1000000000])
    (New 1 none)

/-- Scenario: the task record Run would snapshot for the unlimitedSup
task. -/
def unlimitedProc : Process :=
  (mapLookup unlimitedSup.processes "w").getD (baseProcess "w" 7)

/-- Scenario: a fresh supervisor with a task registered under policy
OnFailure, maxRestarts 3, delay 1s, and a recover handler. -/
def panicSup : Supervisor :=
  okOr (Register (New 1000000000 none) "w" 7
      [WithRecover 9, WithRestart .restartOnFailure 3 1000000000])
    (New 1 none)

/-- Scenario: the task record of the panicSup task. -/
def panicProcOnFailure : Process :=
  (mapLookup panicSup.processes "w").getD (baseProcess "w" 7)

/-- Scenario: the same task record reconfigured with policy Always. -/
def panicProcAlways : Process :=
  { panicProcOnFailure with restartPolicy := .restartAlways }

theorem setProcessStatus_cancelled (s : Supervisor) (name : String) (st : ProcessStatus) :
    (setProcessStatus s name st).cancelled = s.cancelled := by
  unfold setProcessStatus
  cases mapLookup s.processes name <;> rfl

theorem incrementRestartCount_cancelled (s : Supervisor) (name : String) :
    (incrementRestartCount s name).cancelled = s.cancelled := by
  unfold incrementRestartCount
  cases mapLookup s.processes name <;> rfl

/-- C1 counterexample: the claim predicts 4 handler invocations for the task
registered with policy Always and maxRestarts 3 whose handler returns nil
immediately, but the supervision loop performs exactly 3: the limit check
runs right after restartCount is incremented, so the increment to 3 after
the third invocation halts the loop before a fourth invocation. -/
theorem restart_limit_three_runs_not_four :
    (executeProcessWithRestart alwaysNilSup "w" alwaysNilProc (fun _ => .ok) 0 10).2.1 = 3 ∧
      ¬ (executeProcessWithRestart alwaysNilSup "w" alwaysNilProc (fun _ => .ok) 0 10).2.1 = 4 := by
  exact ⟨rfl, by decide⟩

/-- C1 (amended): for a task registered with restartPolicy Always and
maxRestarts 3 whose handler returns nil immediately, the restart-supervision
loop invokes the handler exactly 3 times in total (1 initial invocation plus
2 restarts: the restart-limit check halts the loop when restartCount reaches
3, before a third restart) and then sets the status of the task to
Stopped. -/
theorem always_policy_three_executions (fuel : Nat) (hf : 3 ≤ fuel) :
    (executeProcessWithRestart alwaysNilSup "w" alwaysNilProc (fun _ => .ok) 0 fuel).2 =
      (3, .finished) ∧
    (mapLookup
        (executeProcessWithRestart alwaysNilSup "w" alwaysNilProc (fun _ => .ok) 0 fuel).1.processes
        "w").map Process.status = some .statusStopped := by
  obtain ⟨n, rfl⟩ : ∃ n, fuel = n + 3 := ⟨fuel - 3, by omega⟩
  exact ⟨rfl, rfl⟩

theorem always_policy_three_executions_witness :
    3 ≤ 10 ∧
    ((executeProcessWithRestart alwaysNilSup "w" alwaysNilProc (fun _ => .ok) 0 10).2 =
      (3, .finished) ∧
    (mapLookup
        (executeProcessWithRestart alwaysNilSup "w" alwaysNilProc (fun _ => .ok) 0 10).1.processes
        "w").map Process.status = some .statusStopped) :=
  ⟨by decide, always_policy_three_executions 10 (by decide)⟩

/-- C4 counterexample: a task registered via WithRestart with maxRestarts 0
under policy Always keeps restarting: after 10 fuel steps the loop has
performed 10 invocations and has not been halted by the restart-limit check,
while the claim predicts a halt after the default number (3) of restarts;
moreover the registered record carries maxRestarts 0, not the default 3. -/
theorem nonpositive_max_restarts_not_default :
    (executeProcessWithRestart unlimitedSup "w" unlimitedProc (fun _ => .ok) 0 10).2 =
      (10, .outOfFuel) ∧
    unlimitedProc.maxRestarts = 0 := by
  exact ⟨rfl, rfl⟩

/-- C4 (amended): WithRestart stores maxRestarts verbatim (no default
substitution at configuration time), and a task whose snapshot has
restartPolicy Always and maxRestarts less than or equal to 0, with a handler
that returns nil immediately, is never halted by the restart-limit check:
the guard maxRestarts greater than 0 disables the check, so the loop
performs one invocation per fuel step without finishing. The default limit
of 3 applies only when WithRestart is not used at all. -/
theorem nonpositive_max_restarts_unlimited :
    (∀ (pol : RestartPolicy) (m d : Int) (pr : Process),
      (WithRestart pol m d pr).maxRestarts = m) ∧
    (∀ (s : Supervisor) (name : String) (p : Process) (k fuel : Nat),
      s.cancelled = false → p.restartPolicy = .restartAlways → p.maxRestarts ≤ 0 →
      (executeProcessWithRestart s name p (fun _ => HandlerOutcome.ok) k fuel).2 =
        (k + fuel, .outOfFuel)) := by
  constructor
  · intro pol m d pr
    rfl
  · intro s name p k fuel
    induction fuel generalizing s k with
    | zero =>
      intro _ _ _
      rfl
    | succ fuel ih =>
      intro h1 h2 h3
      have hswitch : restartPolicySwitch p.restartPolicy false false = true := by
        rw [h2]
        rfl
      have hmax : ¬ (p.maxRestarts > 0 ∧
          getRestartCount
            (incrementRestartCount (setProcessStatus s name .statusRunning) name) name ≥
            p.maxRestarts) := by
        intro hc
        omega
      have hrec := ih
        (setProcessStatus
          (incrementRestartCount (setProcessStatus s name .statusRunning) name)
          name .statusRestarting)
        (k + 1)
        (by
          rw [setProcessStatus_cancelled, incrementRestartCount_cancelled,
            setProcessStatus_cancelled]
          exact h1)
        h2 h3
      calc (executeProcessWithRestart s name p (fun _ => HandlerOutcome.ok) k (fuel + 1)).2
          = (executeProcessWithRestart
              (setProcessStatus
                (incrementRestartCount (setProcessStatus s name .statusRunning) name)
                name .statusRestarting)
              name p (fun _ => HandlerOutcome.ok) (k + 1) fuel).2 := by
            simp [executeProcessWithRestart, executeProcess, h1, hswitch, hmax]
        _ = (k + 1 + fuel, .outOfFuel) := hrec
        _ = (k + (fuel + 1), .outOfFuel) := by
            rw [Nat.add_right_comm]
            rfl

theorem nonpositive_max_restarts_unlimited_witness :
    (WithRestart RestartPolicy.restartAlways 0 1000000000 (baseProcess "w" 7)).maxRestarts = 0 ∧
    (unlimitedSup.cancelled = false ∧ unlimitedProc.restartPolicy = .restartAlways ∧
      unlimitedProc.maxRestarts ≤ 0) ∧
    (executeProcessWithRestart unlimitedSup "w" unlimitedProc (fun _ => HandlerOutcome.ok) 0 5).2 =
      (0 + 5, .outOfFuel) :=
  ⟨nonpositive_max_restarts_unlimited.1 RestartPolicy.restartAlways 0 1000000000 (baseProcess "w" 7),
   ⟨by decide, by decide, by decide⟩,
   nonpositive_max_restarts_unlimited.2 unlimitedSup "w" unlimitedProc 0 5
     (by decide) (by decide) (by decide)⟩

/-- C2: the code does not treat a captured panic like a returned error for
the restart decision. At the failing input (the registered OnFailure task
whose handler panics) executeProcess yields shouldRestart false, and it also
yields false for a panicking handler under policy Always, while a non-nil
error yields true under both policies. The final conjunct shows the
restart-policy switch itself would restart on a set panicOccurred flag: the
switch is simply unreachable on the panic path because the deferred recover
makes the Go function return the zero value of its unnamed bool result. -/
theorem recovered_panic_returns_false :
    (executeProcess panicSup "w" panicProcOnFailure .panicked).2 = false ∧
    (executeProcess panicSup "w" panicProcOnFailure .errored).2 = true ∧
    (executeProcess panicSup "w" panicProcAlways .panicked).2 = false ∧
    (executeProcess panicSup "w" panicProcAlways .errored).2 = true ∧
    restartPolicySwitch .restartOnFailure false true = true := by
  exact ⟨rfl, rfl, rfl, rfl, rfl⟩

/-- C3: RestartProcess, StopProcess and GetProcessStatus called with a name
that is not registered each return a not-found error and leave the
supervisor state unchanged: the first two return the input state untouched
on this path, and GetProcessStatus returns only a value pair, never a
mutated state. RestartProcess and StopProcess are modelled from the spec
because their implementation file is not under src. -/
theorem unknown_name_no_mutation (s : Supervisor) (name : String)
    (h : mapLookup s.processes name = none) :
    RestartProcess s name = (s, some ("process " ++ name ++ " not found")) ∧
    StopProcess s name = (s, some ("process " ++ name ++ " not found")) ∧
    GetProcessStatus s name = (.statusStopped, some ("process " ++ name ++ " not found")) := by
  simp [RestartProcess, StopProcess, GetProcessStatus, h]

theorem unknown_name_no_mutation_witness :
    RestartProcess (New 5 none) "x" = (New 5 none, some ("process " ++ "x" ++ " not found")) ∧
    StopProcess (New 5 none) "x" = (New 5 none, some ("process " ++ "x" ++ " not found")) ∧
    GetProcessStatus (New 5 none) "x" =
      (.statusStopped, some ("process " ++ "x" ++ " not found")) :=
  unknown_name_no_mutation (New 5 none) "x" rfl

/-- C5: Register aborts (the Go panic, modelled as the error branch of
Except) if and only if the name is already present in the registry, and
starting from a fresh supervisor, registering two distinct names succeeds
both times and leaves ProcessCount at 2. -/
theorem register_duplicate_panics_iff :
    (∀ (s : Supervisor) (name : String) (hid : Nat) (opts : List SvOption),
      isErr (Register s name hid opts) = (mapLookup s.processes name).isSome) ∧
    (∀ (t : Int) (lg : Option Logger) (n1 n2 : String) (hid1 hid2 : Nat)
        (o1 o2 : List SvOption), n1 ≠ n2 →
      isErr (Register (New t lg) n1 hid1 o1) = false ∧
      isErr (Register (okOr (Register (New t lg) n1 hid1 o1) (New t lg)) n2 hid2 o2) = false ∧
      ProcessCount
        (okOr (Register (okOr (Register (New t lg) n1 hid1 o1) (New t lg)) n2 hid2 o2)
          (New t lg)) = 2) := by
  constructor
  · intro s name hid opts
    cases hm : mapLookup s.processes name <;>
      simp [Register, panicIfNameAlreadyInUse, isErr, hm]
  · intro t lg n1 n2 hid1 hid2 o1 o2 hne
    refine ⟨rfl, ?_, ?_⟩ <;>
      simp [Register, panicIfNameAlreadyInUse, isErr, okOr, ProcessCount, New,
        mapLookup, mapInsert, hne]

theorem register_duplicate_panics_iff_witness :
    ("a" : String) ≠ "b" ∧
    (isErr (Register (New 5 none) "a" 1 []) = false ∧
      isErr (Register (okOr (Register (New 5 none) "a" 1 []) (New 5 none)) "b" 2 []) = false ∧
      ProcessCount
        (okOr (Register (okOr (Register (New 5 none) "a" 1 []) (New 5 none)) "b" 2 [])
          (New 5 none)) = 2) :=
  ⟨by decide, register_duplicate_panics_iff.2 5 none "a" "b" 1 2 [] [] (by decide)⟩

/-- C6: a successful Register with a fresh name only inserts into the
registry the record obtained by folding the options in argument order over
the base record, whose fields before any option are status Stopped,
restartCount 0, maxRestarts 3, restartDelay 1s (in nanoseconds) and the zero
values policy Never and no recover handler; a later option is applied to the
result of an earlier one, so it overrides it on conflicting fields; no other
supervisor field changes and no execution starts (both exported options
preserve the Stopped status of the base record). -/
theorem register_defaults_and_option_order (s : Supervisor) (name : String) (hid : Nat)
    (opts : List SvOption) (hfree : mapLookup s.processes name = none) :
    Register s name hid opts =
      .ok { s with
        processes := mapInsert s.processes name (applyOptions opts (baseProcess name hid)) } ∧
    (baseProcess name hid).status = .statusStopped ∧
    (baseProcess name hid).restartCount = 0 ∧
    (baseProcess name hid).maxRestarts = 3 ∧
    (baseProcess name hid).restartDelay = 1000000000 ∧
    (baseProcess name hid).restartPolicy = .restartNever ∧
    (baseProcess name hid).recoverHandler = none ∧
    (∀ o1 o2 : SvOption,
      applyOptions [o1, o2] (baseProcess name hid) = o2 (o1 (baseProcess name hid))) ∧
    (∀ (rh : Nat) (p : Process), (WithRecover rh p).status = p.status) ∧
    (∀ (pol : RestartPolicy) (m d : Int) (p : Process),
      (WithRestart pol m d p).status = p.status) := by
  refine ⟨?_, rfl, rfl, rfl, rfl, rfl, rfl, fun o1 o2 => rfl, fun rh p => rfl,
    fun pol m d p => rfl⟩
  simp [Register, panicIfNameAlreadyInUse, hfree]

theorem register_defaults_and_option_order_witness :
    Register (New 5 none) "x" 1 [] =
      .ok { New 5 none with
        processes := mapInsert (New 5 none).processes "x" (applyOptions [] (baseProcess "x" 1)) } ∧
    (baseProcess "x" 1).status = .statusStopped ∧
    (baseProcess "x" 1).restartCount = 0 ∧
    (baseProcess "x" 1).maxRestarts = 3 ∧
    (baseProcess "x" 1).restartDelay = 1000000000 ∧
    (baseProcess "x" 1).restartPolicy = .restartNever ∧
    (baseProcess "x" 1).recoverHandler = none ∧
    (∀ o1 o2 : SvOption, applyOptions [o1, o2] (baseProcess "x" 1) = o2 (o1 (baseProcess "x" 1))) ∧
    (∀ (rh : Nat) (p : Process), (WithRecover rh p).status = p.status) ∧
    (∀ (pol : RestartPolicy) (m d : Int) (p : Process),
      (WithRestart pol m d p).status = p.status) :=
  register_defaults_and_option_order (New 5 none) "x" 1 [] rfl

/-- C7: WithRestart substitutes the default delay for a non-positive delay
at configuration time, so the option built with a non-positive delay is the
same function as the option built with DefaultRestartDelay (1s), and
registering with one produces exactly the registration produced by the
other: the two configurations are indistinguishable from registration
onward. -/
theorem withRestart_nonpositive_delay_default (pol : RestartPolicy) (m d : Int)
    (hd : d ≤ 0) (s : Supervisor) (name : String) (hid : Nat) :
    WithRestart pol m d = WithRestart pol m DefaultRestartDelay ∧
    Register s name hid [WithRestart pol m d] =
      Register s name hid [WithRestart pol m DefaultRestartDelay] := by
  have hfun : WithRestart pol m d = WithRestart pol m DefaultRestartDelay := by
    funext p
    simp [WithRestart, hd]
  exact ⟨hfun, by rw [hfun]⟩

theorem withRestart_nonpositive_delay_default_witness :
    (0 : Int) ≤ 0 ∧
    (WithRestart .restartAlways 2 0 = WithRestart .restartAlways 2 DefaultRestartDelay ∧
      Register (New 5 none) "x" 1 [WithRestart .restartAlways 2 0] =
        Register (New 5 none) "x" 1 [WithRestart .restartAlways 2 DefaultRestartDelay]) :=
  ⟨by decide, withRestart_nonpositive_delay_default .restartAlways 2 0 (by decide) (New 5 none) "x" 1⟩

/-- C8: the shutdown path first cancels the shared lifetime token, then
performs the timeout-bounded wait (whose trace entry is the clean completion
or the recorded shutdown-timeout event), and only after that wait, and
regardless of its outcome, runs the optional teardown callback as the last
event; the routine is a total function into a state and an event trace, so
it always returns normally with the context left cancelled, and the public
Shutdown entry point is exactly the shared path with no teardown. -/
theorem shutdown_event_order (s : Supervisor) (td finish : Bool) :
    (shutdown s td finish).2 =
      [ShutdownEvent.cancelLifetimeToken,
        if finish then ShutdownEvent.gracefulWaitCompleted
        else ShutdownEvent.shutdownTimeoutRecorded] ++
        (if td then [ShutdownEvent.teardownRun] else []) ∧
    (shutdown s td finish).1.cancelled = true ∧
    Shutdown s finish = shutdown s false finish := by
  cases td <;> cases finish <;> simp [shutdown, gracefulShutdown, Shutdown]

/-- C9: IsRunning with an unregistered name returns false (it is a total
Boolean function, so it neither errors nor panics), and for a registered
name it returns true exactly when the stored status is StatusRunning, which
holds exactly when GetProcessStatus returns the pair of StatusRunning and no
error. -/
theorem isRunning_iff_status_running (s : Supervisor) (name : String) :
    (mapLookup s.processes name = none → IsRunning s name = false) ∧
    (∀ p : Process, mapLookup s.processes name = some p →
      (IsRunning s name = true ↔ p.status = .statusRunning)) ∧
    (IsRunning s name = true ↔ GetProcessStatus s name = (.statusRunning, none)) := by
  cases hm : mapLookup s.processes name with
  | none => simp [IsRunning, GetProcessStatus, hm]
  | some p =>
    cases hst : p.status <;> simp [IsRunning, GetProcessStatus, hm, hst]

theorem isRunning_iff_status_running_witness :
    IsRunning (New 5 none) "x" = false :=
  (isRunning_iff_status_running (New 5 none) "x").1 rfl

/-- C10: New always yields a positive shutdown timeout (a non-positive
argument is replaced by the 5-second default and a positive one is kept), a
logger that is never nil (the nil argument is replaced by the default JSON
logger, a provided one is kept), an empty registry, and a lifetime token
that is not yet cancelled. -/
theorem new_defaults (t : Int) (lg : Option Logger) :
    0 < (New t lg).shutdownTimeout ∧
    (t ≤ 0 → (New t lg).shutdownTimeout = DefaultGracefulShutdownTimeout) ∧
    (0 < t → (New t lg).shutdownTimeout = t) ∧
    (New t lg).logger = lg.getD Logger.defaultJSONLogger ∧
    (New t lg).processes = [] ∧
    (New t lg).cancelled = false := by
  have h0 : (New t lg).shutdownTimeout =
      if t ≤ 0 then DefaultGracefulShutdownTimeout else t := by
    cases lg <;> rfl
  refine ⟨?_, ?_, ?_, ?_, ?_, ?_⟩
  · rw [h0]
    by_cases h : t ≤ 0
    · rw [if_pos h]
      decide
    · rw [if_neg h]
      omega
  · intro h
    rw [h0, if_pos h]
  · intro h
    rw [h0, if_neg (by omega)]
  · cases lg <;> rfl
  · cases lg <;> rfl
  · cases lg <;> rfl

theorem new_defaults_witness :
    0 < (New 0 none).shutdownTimeout ∧
    (New 0 none).shutdownTimeout = DefaultGracefulShutdownTimeout ∧
    (New 0 none).logger = Logger.defaultJSONLogger ∧
    (New 0 none).processes = [] ∧
    (New 0 none).cancelled = false := by
  have h := new_defaults 0 none
  exact ⟨h.1, h.2.1 (by decide), h.2.2.2.1, h.2.2.2.2.1, h.2.2.2.2.2⟩

end Simplevisor
